import Mathlib

/-!
Verification development for the WiredTiger KV engine control plane
(`src/mongo/db/storage/wiredtiger/wiredtiger_kv_engine.cpp`).

The definitions below are a shallow embedding of the functions the claims
talk about: timestamps are `Nat` (the code only compares and copies 64-bit
values, it never does arithmetic on them), fallible paths return `Option`
(`none` models a process-fatal `invariant`/`fassert` failure), and the
storage core, replication coordinator and S3 service are abstracted as
explicit parameters recording the answers the code would receive from them.
-/

namespace WTKV

/-- POSIX error code `EBUSY` as used by the storage core's `drop`. -/
def EBUSY : Nat := 16

/-- POSIX error code `ENOENT` as used by the storage core's `drop`. -/
def ENOENT : Nat := 2

/-- Largest 64-bit value, `std::numeric_limits<uint64_t>::max()`. -/
def UINT64_MAX : Nat := 2 ^ 64 - 1

/-- Sentinel below or at which the initial-data timestamp means "no
consistent view of the data yet".  `Timestamp::kAllowUnstableCheckpointsSentinel`
is `Timestamp(0, 1)` (see the comment block in `WiredTigerCheckpointThread::run`),
whose 64-bit encoding is `1`. -/
def allowUnstableCheckpointsSentinel : Nat := 1

/-! ## Checkpoint thread state (`WiredTigerCheckpointThread`) -/

/-- Mutable state of `WiredTigerCheckpointThread`: the atomic stable,
initial-data and last-stable-checkpoint timestamps plus the one-shot
`_firstStableCheckpointTaken` flag. -/
structure CheckpointThreadState where
  stableTimestamp : Nat
  initialDataTimestamp : Nat
  firstStableCheckpointTaken : Bool
  lastStableCheckpointTimestamp : Nat
deriving DecidableEq, Repr

/-- What one tick of the checkpoint worker does to the storage core:
either a `checkpoint` call with the given `use_timestamp` setting, or no
call at all (the skip branch). -/
inductive TickAction where
  | checkpointCall (useTimestamp : Bool)
  | skip
deriving DecidableEq, Repr

/-- One tick of `WiredTigerCheckpointThread::run` (the branch ladder after
the condition-variable wait), assuming the storage-core `checkpoint` call
succeeds (a nonzero return is process-fatal via `invariantWTOK`, and an
exception aborts the tick before anything is published).  `mrc` is
`serverGlobalParams.enableMajorityReadConcern`.  Returns the action taken
and the updated thread state. -/
def checkpointTick (mrc : Bool) (st : CheckpointThreadState) :
    TickAction × CheckpointThreadState :=
  let stableTimestamp := st.stableTimestamp
  let initialDataTimestamp := st.initialDataTimestamp
  if initialDataTimestamp ≤ 1 then
    (TickAction.checkpointCall false, st)
  else if mrc = false then
    (TickAction.checkpointCall false,
     { st with lastStableCheckpointTimestamp := UINT64_MAX })
  else if stableTimestamp < initialDataTimestamp then
    (TickAction.skip, st)
  else
    (TickAction.checkpointCall true,
     { st with lastStableCheckpointTimestamp := stableTimestamp })

/-- `WiredTigerCheckpointThread::setStableTimestamp`: swap in the new
stable value; if the one-shot flag is already set, return early; otherwise
set the flag and notify the worker's condition variable exactly when the
stable timestamp crosses the initial-data timestamp from below.  The
returned `Bool` is true when `_condvar.notify_one()` was called. -/
def ctSetStableTimestamp (stableTimestamp : Nat) (st : CheckpointThreadState) :
    CheckpointThreadState × Bool :=
  let prevStable := st.stableTimestamp
  let st1 := { st with stableTimestamp := stableTimestamp }
  if st.firstStableCheckpointTaken then
    (st1, false)
  else
    let initialData := st.initialDataTimestamp
    if prevStable < initialData ∧ initialData ≤ stableTimestamp then
      ({ st1 with firstStableCheckpointTaken := true }, true)
    else
      (st1, false)

/-- `WiredTigerCheckpointThread::setInitialDataTimestamp`. -/
def ctSetInitialDataTimestamp (initialDataTimestamp : Nat)
    (st : CheckpointThreadState) : CheckpointThreadState :=
  { st with initialDataTimestamp := initialDataTimestamp }

/-- `WiredTigerCheckpointThread::canRecoverToStableTimestamp`: fatal
(`invariant`) when the initial-data timestamp is not above the
unstable-checkpoint sentinel; otherwise true iff stable has reached
initial-data. -/
def canRecoverToStableTimestamp (st : CheckpointThreadState) : Option Bool :=
  if st.initialDataTimestamp ≤ allowUnstableCheckpointsSentinel then
    none
  else
    some (decide (st.initialDataTimestamp ≤ st.stableTimestamp))

/-! ## Recover to stable timestamp (`WiredTigerKVEngine::recoverToStableTimestamp`) -/

/-- Side effects `recoverToStableTimestamp` performs against the engine,
in order. -/
inductive EngineAction where
  | syncSizeInfo
  | shutdownJournalFlusher
  | shutdownCheckpointThread
  | rollbackToStable
  | restartJournalFlusher
  | restartCheckpointThread
  | rebuildSizeStorer
deriving DecidableEq, Repr

/-- Outcome of `recoverToStableTimestamp`. -/
inductive RecoverResult where
  | unrecoverableRollback
  | ok (stableTimestamp : Nat)
deriving DecidableEq, Repr

/-- `WiredTigerKVEngine::recoverToStableTimestamp`.  `ephemeral` and
`keepDataHistory` feed `supportsRecoverToStableTimestamp` (fatal fassert
50665 when unsupported); `rollbackRet` is the return of the storage core's
`rollback_to_stable`.  Returns the status, the checkpoint-thread state
after the call and the list of engine actions performed; `none` is a
process-fatal invariant failure. -/
def recoverToStableTimestamp (ephemeral keepDataHistory : Bool)
    (rollbackRet : Nat) (st : CheckpointThreadState) :
    Option (RecoverResult × CheckpointThreadState × List EngineAction) :=
  if ephemeral ∨ keepDataHistory = false then
    none
  else
    match canRecoverToStableTimestamp st with
    | none => none
    | some false => some (RecoverResult.unrecoverableRollback, st, [])
    | some true =>
      let stableTimestamp := st.stableTimestamp
      let initialDataTimestamp := st.initialDataTimestamp
      if rollbackRet ≠ 0 then
        some (RecoverResult.unrecoverableRollback, st,
          [EngineAction.syncSizeInfo, EngineAction.shutdownJournalFlusher,
           EngineAction.shutdownCheckpointThread, EngineAction.rollbackToStable])
      else
        let fresh : CheckpointThreadState :=
          { stableTimestamp := 0, initialDataTimestamp := 0,
            firstStableCheckpointTaken := false,
            lastStableCheckpointTimestamp := 0 }
        let st1 := ctSetInitialDataTimestamp initialDataTimestamp fresh
        let st2 := (ctSetStableTimestamp stableTimestamp st1).1
        some (RecoverResult.ok stableTimestamp, st2,
          [EngineAction.syncSizeInfo, EngineAction.shutdownJournalFlusher,
           EngineAction.shutdownCheckpointThread, EngineAction.rollbackToStable,
           EngineAction.restartJournalFlusher, EngineAction.restartCheckpointThread,
           EngineAction.rebuildSizeStorer])

/-! ## Ident drop and the drop queue (`dropIdent`, `dropSomeQueuedIdents`) -/

/-- `WiredTigerKVEngine::dropIdent` after the storage core's
`drop("force,checkpoint_wait=false")` returned `ret`: `0` succeeds,
`EBUSY` pushes the URI on the *front* of `_identToDrop` and succeeds,
`ENOENT` succeeds, anything else is process-fatal (`invariantWTOK`).
The queue is a list whose head is the front; `some q` is `Status::OK()`
with the queue left as `q`. -/
def dropIdent (ret : Nat) (uri : String) (q : List String) :
    Option (List String) :=
  if ret = 0 then
    some q
  else if ret = EBUSY then
    some (uri :: q)
  else if ret = ENOENT then
    some q
  else
    none

/-- Queue contents after a sequence of `dropIdent` calls that all hit
`EBUSY`, in call order (each call does `_identToDrop.push_front`). -/
def enqueueIdents (uris : List String) (q : List String) : List String :=
  uris.foldl (fun acc uri => uri :: acc) q

/-- Loop body of `WiredTigerKVEngine::dropSomeQueuedIdents`: up to `n`
iterations, each pops the front URI (stopping if the queue is empty),
calls the storage core's `drop` (modelled by the oracle `f`), re-enqueues
the URI at the back on `EBUSY`, and is process-fatal (`invariantWTOK`) on
any other nonzero return.  Returns the final queue together with the URIs
dropped for good, in pop order. -/
def dropSomeQueuedIdentsLoop (f : String → Nat) :
    Nat → List String → Option (List String × List String)
  | 0, q => some (q, [])
  | _ + 1, [] => some ([], [])
  | n + 1, uri :: rest =>
    if f uri = EBUSY then
      dropSomeQueuedIdentsLoop f n (rest ++ [uri])
    else if f uri = 0 then
      (dropSomeQueuedIdentsLoop f n rest).map fun r => (r.1, uri :: r.2)
    else
      none

/-- Number of queued drops attempted per sweep: 10, or ten percent of the
queue when that is larger (the source computes `numInQueue * 0.1` in
double precision and truncates to `int`; `Nat` division matches that
truncation). -/
def numToDelete (numInQueue : Nat) : Nat :=
  if 10 < numInQueue / 10 then numInQueue / 10 else 10

/-- `WiredTigerKVEngine::dropSomeQueuedIdents` on queue `q` with drop
oracle `f`. -/
def dropSomeQueuedIdents (f : String → Nat) (q : List String) :
    Option (List String × List String) :=
  dropSomeQueuedIdentsLoop f (numToDelete q.length) q

/-! ## Oldest timestamp (`WiredTigerKVEngine::setOldestTimestamp`) -/

/-- What `setOldestTimestamp` pushed to the storage core via
`set_timestamp`: nothing (early return), `oldest_timestamp=<v>` alone, or
`force=true,oldest_timestamp=<v>,commit_timestamp=<v>`. -/
inductive TimestampPush where
  | nothing
  | oldestOnly (v : Nat)
  | forceBoth (v : Nat)
deriving DecidableEq, Repr

/-- `WiredTigerKVEngine::setOldestTimestamp`.  `failpoint` is the
`WTPreserveSnapshotHistoryIndefinitely` debug switch;
`oplogReadTimestamp` is `_oplogManager->getOplogReadTimestamp()` (zero
means null); `localSnapshotTimestamp` is the snapshot manager's local
snapshot (`none` when unset); `cachedOldest` is `_oldestTimestamp`.
Returns what was pushed to the storage core and the new cached oldest. -/
def setOldestTimestamp (failpoint : Bool) (oplogReadTimestamp : Nat)
    (localSnapshotTimestamp : Option Nat) (cachedOldest : Nat)
    (oldestTimestamp : Nat) (force : Bool) : TimestampPush × Nat :=
  if failpoint then
    (TimestampPush.nothing, cachedOldest)
  else if oldestTimestamp = 0 then
    (TimestampPush.nothing, cachedOldest)
  else
    let t1 :=
      if force = false ∧ oplogReadTimestamp ≠ 0 ∧
          oplogReadTimestamp < oldestTimestamp then
        oplogReadTimestamp
      else
        oldestTimestamp
    let t2 :=
      match localSnapshotTimestamp with
      | some ls => if force = false ∧ ls < t1 then ls else t1
      | none => t1
    let pushed := if force then TimestampPush.forceBoth t2
                  else TimestampPush.oldestOnly t2
    let newCached :=
      if force then t2
      else if cachedOldest < t2 then t2
      else cachedOldest
    (pushed, newCached)

/-- Modelled from the claim's wording, for comparison with the code: the
value `ts` clamped down to the minimum of the stable timestamp, the
oplog-read timestamp and the local snapshot timestamp, taking into account
only those of the three that are defined/non-zero. -/
def claimedOldestPush (stableTimestamp : Nat) (oplogReadTimestamp : Nat)
    (localSnapshotTimestamp : Option Nat) (ts : Nat) : Nat :=
  let m1 := if stableTimestamp ≠ 0 then min ts stableTimestamp else ts
  let m2 := if oplogReadTimestamp ≠ 0 then min m1 oplogReadTimestamp else m1
  match localSnapshotTimestamp with
  | some ls => min m2 ls
  | none => m2

/-! ## Downgrade decision (`WiredTigerFileVersion::shouldDowngrade`) -/

/-- On-disk compatibility version detected at startup
(`WiredTigerFileVersion::StartupVersion`). -/
inductive StartupVersion where
  | IS_34
  | IS_36
  | IS_40
deriving DecidableEq, Repr

/-- `WiredTigerFileVersion::shouldDowngrade`.  `startupVersion` is the
`_startupVersion` field; `arbiter` is whether the replication member state
is arbiter; `fcvInitialized` is
`serverGlobalParams.featureCompatibility.isVersionInitialized()`;
`fcvFullyDowngradedTo36` is whether `getVersion()` equals
`kFullyDowngradedTo36`; `usingReplSets` is
`getGlobalReplSettings().usingReplSets()`.  The `repairMode` parameter is
accepted but, as in the source, never read. -/
def shouldDowngrade (startupVersion : StartupVersion)
    (readOnly repairMode hasRecoveryTimestamp : Bool)
    (arbiter fcvInitialized fcvFullyDowngradedTo36 usingReplSets : Bool) :
    Bool :=
  if readOnly then
    false
  else if arbiter then
    true
  else if fcvInitialized = false then
    decide (startupVersion = StartupVersion.IS_36 ∨
            startupVersion = StartupVersion.IS_34)
  else if fcvFullyDowngradedTo36 = false then
    false
  else if usingReplSets then
    true
  else if hasRecoveryTimestamp then
    false
  else
    true

/-! ## Last stable checkpoint (`WiredTigerKVEngine::getLastStableCheckpointTimestamp`) -/

/-- `WiredTigerKVEngine::getLastStableCheckpointTimestamp`.  Fatal
(fassert 50770) when `supportsRecoverToStableTimestamp()` is false, hence
the outer `Option`; the inner `Option Nat` is the `boost::optional`
result.  `lastStableCheckpoint` is the checkpoint thread's published
value; `recoveryTimestamp` is `_recoveryTimestamp` (zero means null). -/
def getLastStableCheckpointTimestamp (ephemeral keepDataHistory : Bool)
    (lastStableCheckpoint : Nat) (recoveryTimestamp : Nat) :
    Option (Option Nat) :=
  if ephemeral ∨ keepDataHistory = false then
    none
  else if lastStableCheckpoint ≠ 0 then
    some (some lastStableCheckpoint)
  else if recoveryTimestamp ≠ 0 then
    some (some recoveryTimestamp)
  else
    some none

/-! ## S3 hot backup (`WiredTigerKVEngine::hotBackup`, S3 overload) -/

/-- One file to back up: source path, destination key, size (from
`_hotBackupPopulateLists`). -/
structure FileEntry where
  src : String
  dst : String
  size : Nat
deriving DecidableEq, Repr

/-- S3 parameters relevant to the upload phase (`percona::S3BackupParameters`:
the endpoint/scheme/region/profile fields only configure the client and do
not influence the control flow modelled here). -/
structure S3Params where
  bucket : String
  path : String
deriving DecidableEq, Repr

/-- Answers the S3 service gives during one `hotBackup` call:
`listBucketsOutcome` is the bucket-name list (`none` on failure),
`createBucketOutcome` whether `CreateBucket` succeeds, `listObjectsOutcome`
the object keys under the configured prefix (`none` on failure),
`openOutcome`/`putOutcome` whether opening a source file and `PutObject`
on a key succeed. -/
structure S3World where
  listBucketsOutcome : Option (List String)
  createBucketOutcome : Bool
  listObjectsOutcome : Option (List String)
  openOutcome : String → Bool
  putOutcome : String → Bool

/-- Result of the S3 `hotBackup`: `ok` is `Status::OK()`; the two error
kinds are the `ErrorCodes` used in the function. -/
inductive HotBackupResult where
  | ok
  | invalidPath
  | internalError
deriving DecidableEq, Repr

/-- Upload loop at the end of the S3 `hotBackup`: for each file, open the
source (failure is `InvalidPath`), `PutObject` it (failure is
`InternalError`), stopping at the first failure.  Also returns the keys
successfully uploaded, in order. -/
def uploadFiles (openOutcome putOutcome : String → Bool) :
    List FileEntry → HotBackupResult × List String
  | [] => (HotBackupResult.ok, [])
  | f :: rest =>
    if openOutcome f.src = false then
      (HotBackupResult.invalidPath, [])
    else if putOutcome f.dst = false then
      (HotBackupResult.internalError, [])
    else
      let r := uploadFiles openOutcome putOutcome rest
      (r.1, f.dst :: r.2)

/-- `WiredTigerKVEngine::hotBackup` (S3 overload) after
`_hotBackupPopulateLists` produced `populateResult`: list buckets, create
the bucket when absent, and when the bucket already exists require every
listed object key under the prefix to equal `path + '/'` before uploading
anything.  Returns the status and the keys uploaded. -/
def hotBackupS3 (w : S3World) (p : S3Params)
    (populateResult : Except HotBackupResult (List FileEntry)) :
    HotBackupResult × List String :=
  match populateResult with
  | Except.error e => (e, [])
  | Except.ok filesList =>
    match w.listBucketsOutcome with
    | none => (HotBackupResult.internalError, [])
    | some buckets =>
      let bucketExists := decide (p.bucket ∈ buckets)
      if bucketExists = false ∧ w.createBucketOutcome = false then
        (HotBackupResult.invalidPath, [])
      else if bucketExists then
        match w.listObjectsOutcome with
        | none => (HotBackupResult.invalidPath, [])
        | some objectList =>
          let root := p.path ++ "/"
          if objectList.any (fun k => k ≠ root) then
            (HotBackupResult.invalidPath, [])
          else
            uploadFiles w.openOutcome w.putOutcome filesList
      else
        uploadFiles w.openOutcome w.putOutcome filesList

/-! ## Sample URIs used in concrete evaluations -/

/-- Sample URI of a first ident. -/
def uriA : String := "table:a"

/-- Sample URI of a second ident. -/
def uriB : String := "table:b"

/-! ## Theorems -/

/-- C1: on every tick of the checkpoint worker, a timestamped stable
checkpoint (`use_timestamp=true`) is taken iff the sampled initial-data
timestamp is `> 1`, majority read concern is enabled and the sampled
stable timestamp is `≥` the initial-data timestamp; otherwise the tick
takes an untimestamped full checkpoint (when initial-data `≤ 1` or
majority read concern is disabled) or skips (when stable `<`
initial-data); and on a successful stable checkpoint the last stable
checkpoint timestamp is published as the stable value sampled before the
checkpoint call. -/
theorem checkpointTick_stable_iff (mrc : Bool) (st : CheckpointThreadState) :
    ((checkpointTick mrc st).1 = TickAction.checkpointCall true ↔
      (1 < st.initialDataTimestamp ∧ mrc = true ∧
        st.initialDataTimestamp ≤ st.stableTimestamp)) ∧
    ((checkpointTick mrc st).1 = TickAction.checkpointCall false ↔
      (st.initialDataTimestamp ≤ 1 ∨ mrc = false)) ∧
    ((checkpointTick mrc st).1 = TickAction.skip ↔
      (1 < st.initialDataTimestamp ∧ mrc = true ∧
        st.stableTimestamp < st.initialDataTimestamp)) ∧
    ((checkpointTick mrc st).1 = TickAction.checkpointCall true →
      ((checkpointTick mrc st).2).lastStableCheckpointTimestamp =
        st.stableTimestamp) := by
  rcases mrc with _ | _ <;>
    by_cases h1 : st.initialDataTimestamp ≤ 1 <;>
    by_cases h2 : st.stableTimestamp < st.initialDataTimestamp <;>
    simp [checkpointTick, h1, h2] <;> omega

/-- Witness for C1: with majority read concern on, initial-data 3 and
stable 5, the tick takes a timestamped stable checkpoint. -/
theorem checkpointTick_stable_iff_witness :
    (checkpointTick true
      { stableTimestamp := 5, initialDataTimestamp := 3,
        firstStableCheckpointTaken := false,
        lastStableCheckpointTimestamp := 0 }).1 =
      TickAction.checkpointCall true :=
  (checkpointTick_stable_iff true
    { stableTimestamp := 5, initialDataTimestamp := 3,
      firstStableCheckpointTaken := false,
      lastStableCheckpointTimestamp := 0 }).1.mpr (by decide)

/-- C4: `dropIdent` returns success when the storage core's drop returns
`0` or `ENOENT` (dropping a non-existent ident is a no-op), enqueues the
URI and returns success on `EBUSY`, and any other nonzero return is
process-fatal. -/
theorem dropIdent_returns (ret : Nat) (uri : String) (q : List String) :
    (dropIdent 0 uri q = some q) ∧
    (dropIdent ENOENT uri q = some q) ∧
    (dropIdent EBUSY uri q = some (uri :: q)) ∧
    (ret ≠ 0 → ret ≠ EBUSY → ret ≠ ENOENT → dropIdent ret uri q = none) := by
  refine ⟨by simp [dropIdent], by simp [dropIdent, ENOENT, EBUSY],
    by simp [dropIdent, EBUSY], ?_⟩
  intro h1 h2 h3
  simp [dropIdent, h1, h2, h3]

/-- Witness for C4: drop return code 5 (`EIO`) is fatal. -/
theorem dropIdent_returns_witness : dropIdent 5 uriA [] = none :=
  (dropIdent_returns 5 uriA []).2.2.2 (by decide) (by decide) (by decide)

/-- C6: the downgrade-on-close decision, read as the ordered decision list
of the claim: false whenever read-only; else true whenever the node is an
arbiter; else, when FCV is not initialized, true iff the detected startup
file version is one of the two older versions; when FCV is fully
downgraded, true iff the node is a replica-set member or has no recovery
timestamp; and false when FCV is initialized but not fully downgraded. -/
theorem shouldDowngrade_spec (sv : StartupVersion)
    (readOnly repairMode hasRecoveryTimestamp arbiter fcvInitialized
      fcvFullyDowngradedTo36 usingReplSets : Bool) :
      (readOnly = true →
        shouldDowngrade sv readOnly repairMode hasRecoveryTimestamp arbiter
          fcvInitialized fcvFullyDowngradedTo36 usingReplSets = false) ∧
      (readOnly = false → arbiter = true →
        shouldDowngrade sv readOnly repairMode hasRecoveryTimestamp arbiter
          fcvInitialized fcvFullyDowngradedTo36 usingReplSets = true) ∧
      (readOnly = false → arbiter = false → fcvInitialized = false →
        (shouldDowngrade sv readOnly repairMode hasRecoveryTimestamp arbiter
          fcvInitialized fcvFullyDowngradedTo36 usingReplSets = true ↔
          (sv = StartupVersion.IS_36 ∨ sv = StartupVersion.IS_34))) ∧
      (readOnly = false → arbiter = false → fcvInitialized = true →
        fcvFullyDowngradedTo36 = true →
        (shouldDowngrade sv readOnly repairMode hasRecoveryTimestamp arbiter
          fcvInitialized fcvFullyDowngradedTo36 usingReplSets = true ↔
          (usingReplSets = true ∨ hasRecoveryTimestamp = false))) ∧
      (readOnly = false → arbiter = false → fcvInitialized = true →
        fcvFullyDowngradedTo36 = false →
        shouldDowngrade sv readOnly repairMode hasRecoveryTimestamp arbiter
          fcvInitialized fcvFullyDowngradedTo36 usingReplSets = false) := by
  rcases sv <;> rcases readOnly <;> rcases repairMode <;>
    rcases hasRecoveryTimestamp <;> rcases arbiter <;> rcases fcvInitialized <;>
    rcases fcvFullyDowngradedTo36 <;> rcases usingReplSets <;>
    simp [shouldDowngrade]

/-- Witness for C6: a non-read-only node with uninitialized FCV that
started at the 3.6 file version downgrades. -/
theorem shouldDowngrade_spec_witness :
    shouldDowngrade StartupVersion.IS_36 false false false false false false
      false = true :=
  ((shouldDowngrade_spec StartupVersion.IS_36 false false false false false
    false false).2.2.1 rfl rfl rfl).mpr (Or.inl rfl)

/-- C9: on an engine that supports recover-to-stable,
`getLastStableCheckpointTimestamp` returns the published
last-stable-checkpoint timestamp when nonzero, falls back to the startup
recovery timestamp when that is non-null, and returns none only when both
are absent. -/
theorem getLastStableCheckpointTimestamp_spec (last recovery : Nat) :
    (last ≠ 0 →
      getLastStableCheckpointTimestamp false true last recovery =
        some (some last)) ∧
    (last = 0 → recovery ≠ 0 →
      getLastStableCheckpointTimestamp false true last recovery =
        some (some recovery)) ∧
    (last = 0 → recovery = 0 →
      getLastStableCheckpointTimestamp false true last recovery =
        some none) := by
  refine ⟨fun h => ?_, fun h1 h2 => ?_, fun h1 h2 => ?_⟩
  · simp [getLastStableCheckpointTimestamp, h]
  · simp [getLastStableCheckpointTimestamp, h1, h2]
  · simp [getLastStableCheckpointTimestamp, h1, h2]

/-- Witness for C9: with a published last stable checkpoint of 5 the
engine reports 5. -/
theorem getLastStableCheckpointTimestamp_spec_witness :
    getLastStableCheckpointTimestamp false true 5 7 = some (some 5) :=
  (getLastStableCheckpointTimestamp_spec 5 7).1 (by decide)

/-- C7: the first-stable trigger is one-shot.  Starting from a thread
state with initial-data `d > 1`, stable `s0 < d` and the one-shot flag
clear, the first `setStableTimestamp t` with `t ≥ d` notifies the
checkpoint worker's condition variable and the second identical call does
not; moreover once the flag is set no later `setStableTimestamp` call ever
notifies again, and the flag stays set. -/
theorem firstStableWake_oneShot (d t s0 last : Nat) (hd : 1 < d)
    (hs : s0 < d) (ht : d ≤ t) :
    (ctSetStableTimestamp t
      { stableTimestamp := s0, initialDataTimestamp := d,
        firstStableCheckpointTaken := false,
        lastStableCheckpointTimestamp := last }).2 = true ∧
    (ctSetStableTimestamp t
      ((ctSetStableTimestamp t
        { stableTimestamp := s0, initialDataTimestamp := d,
          firstStableCheckpointTaken := false,
          lastStableCheckpointTimestamp := last }).1)).2 = false ∧
    (∀ (st : CheckpointThreadState) (u : Nat),
      st.firstStableCheckpointTaken = true →
      (ctSetStableTimestamp u st).2 = false ∧
      ((ctSetStableTimestamp u st).1).firstStableCheckpointTaken = true) := by
  refine ⟨?_, ?_, ?_⟩
  · simp [ctSetStableTimestamp, hs, ht]
  · simp [ctSetStableTimestamp, hs, ht]
  · intro st u hflag
    simp [ctSetStableTimestamp, hflag]

/-- Witness for C7: initial-data 2, stable starting at 0, two calls with
stable 3. -/
theorem firstStableWake_oneShot_witness :
    (ctSetStableTimestamp 3
      { stableTimestamp := 0, initialDataTimestamp := 2,
        firstStableCheckpointTaken := false,
        lastStableCheckpointTimestamp := 0 }).2 = true :=
  (firstStableWake_oneShot 2 3 0 0 (by decide) (by decide) (by decide)).1

/-- C5: `recoverToStableTimestamp` never proceeds when the stable
timestamp is below the initial-data timestamp (initial-data being above
the unstable-checkpoint sentinel): it returns the unrecoverable-rollback
error, the checkpoint-thread state is unchanged, and no engine action at
all is performed (no worker shutdown, no `rollback_to_stable`). -/
theorem recoverToStableTimestamp_blocked (rollbackRet : Nat)
    (st : CheckpointThreadState) (h1 : 1 < st.initialDataTimestamp)
    (h2 : st.stableTimestamp < st.initialDataTimestamp) :
    recoverToStableTimestamp false true rollbackRet st =
      some (RecoverResult.unrecoverableRollback, st, []) := by
  have hsent : ¬ st.initialDataTimestamp ≤ allowUnstableCheckpointsSentinel := by
    unfold allowUnstableCheckpointsSentinel
    omega
  have hcan : ¬ st.initialDataTimestamp ≤ st.stableTimestamp := by omega
  simp [recoverToStableTimestamp, canRecoverToStableTimestamp, hsent, hcan]

/-- Witness for C5: stable 1 below initial-data 2 blocks the rollback with
no side effect. -/
theorem recoverToStableTimestamp_blocked_witness :
    recoverToStableTimestamp false true 0
      { stableTimestamp := 1, initialDataTimestamp := 2,
        firstStableCheckpointTaken := false,
        lastStableCheckpointTimestamp := 0 } =
      some (RecoverResult.unrecoverableRollback,
        { stableTimestamp := 1, initialDataTimestamp := 2,
          firstStableCheckpointTaken := false,
          lastStableCheckpointTimestamp := 0 }, []) :=
  recoverToStableTimestamp_blocked 0
    { stableTimestamp := 1, initialDataTimestamp := 2,
      firstStableCheckpointTaken := false,
      lastStableCheckpointTimestamp := 0 } (by decide) (by decide)

/-- C3 counterexample: `setOldestTimestamp` does not clamp to the stable
timestamp.  In an engine state whose stable timestamp is 3 (nonzero, hence
"defined" in the claim's sense), with a null oplog-read timestamp and no
local snapshot, the call `setOldestTimestamp(5, force=false)` pushes
`oldest_timestamp=5` — the stable timestamp never enters the clamp in the
source — while the claimed clamp `min` over the defined values yields 3. -/
theorem setOldestTimestamp_stableClamp_counterexample :
    (setOldestTimestamp false 0 none 0 5 false).1 =
      TimestampPush.oldestOnly 5 ∧
    claimedOldestPush 3 0 none 5 = 3 ∧
    TimestampPush.oldestOnly 5 ≠ TimestampPush.oldestOnly 3 := by
  decide

/-- C3 amended: for every `setOldestTimestamp(ts, force=false)` with
`ts ≠ 0` and the indefinite-history debug switch off, the value pushed to
the storage core as `oldest_timestamp` equals `ts` clamped down to the
minimum of the oplog-read timestamp (when nonzero) and the local snapshot
timestamp (when defined); the stable timestamp does not participate in the
clamp (on the `setStableTimestamp` path the stable value is `ts` itself). -/
theorem setOldestTimestamp_clamp (oplogReadTimestamp : Nat)
    (localSnapshotTimestamp : Option Nat) (cachedOldest ts : Nat)
    (h : ts ≠ 0) :
    (setOldestTimestamp false oplogReadTimestamp localSnapshotTimestamp
        cachedOldest ts false).1 =
      TimestampPush.oldestOnly
        (match localSnapshotTimestamp with
         | some ls =>
           if oplogReadTimestamp = 0 then min ts ls
           else min ts (min oplogReadTimestamp ls)
         | none =>
           if oplogReadTimestamp = 0 then ts
           else min ts oplogReadTimestamp) := by
  rcases localSnapshotTimestamp with _ | ls <;>
    simp [setOldestTimestamp, h] <;>
    split_ifs <;> simp_all <;> omega

/-- Witness for the amended C3: `ts = 5` clamps to the local snapshot 2
below the oplog-read timestamp 4. -/
theorem setOldestTimestamp_clamp_witness :
    (setOldestTimestamp false 4 (some 2) 0 5 false).1 =
      TimestampPush.oldestOnly (min 5 (min 4 2)) :=
  setOldestTimestamp_clamp 4 (some 2) 0 5 (by decide)

/-- C2 counterexample: the drop queue is not FIFO at insertion.  Two
`dropIdent` calls whose drops return `EBUSY`, first for `uriA` then for
`uriB`, leave the queue as `[uriB, uriA]` (each call pushes at the front),
which differs from the insertion order `[uriA, uriB]`; the reaper then
pops `uriB` — the most recently enqueued URI — first, as its pop order
(second component of the result) shows. -/
theorem dropQueue_fifo_counterexample :
    dropIdent EBUSY uriA [] = some [uriA] ∧
    dropIdent EBUSY uriB [uriA] = some [uriB, uriA] ∧
    [uriB, uriA] ≠ [uriA, uriB] ∧
    dropSomeQueuedIdents (fun _ => 0) [uriB, uriA] =
      some ([], [uriB, uriA]) := by
  decide

/-- C2 amended: `dropIdent` inserts at the *front* of the drop queue, so
after a sequence of busy drops the queue holds the URIs in reverse
insertion order; the reaper pops from the front — reaping the most
recently enqueued URI first — and re-enqueues a still-busy URI at the
back. -/
theorem dropQueue_lifo (uris q : List String) (f : String → Nat) (n : Nat)
    (uri : String) (rest : List String) (hbusy : f uri = EBUSY) :
    enqueueIdents uris q = uris.reverse ++ q ∧
    dropSomeQueuedIdentsLoop f (n + 1) (uri :: rest) =
      dropSomeQueuedIdentsLoop f n (rest ++ [uri]) := by
  constructor
  · induction uris generalizing q with
    | nil => simp [enqueueIdents]
    | cons u us ih =>
      show enqueueIdents us (u :: q) = (u :: us).reverse ++ q
      rw [ih (u :: q)]
      simp
  · simp [dropSomeQueuedIdentsLoop, hbusy]

/-- Witness for the amended C2: inserting `uriA` then `uriB` yields the
reversed queue, and a busy front URI moves to the back. -/
theorem dropQueue_lifo_witness :
    enqueueIdents [uriA, uriB] [] = ([uriA, uriB]).reverse ++ [] ∧
    dropSomeQueuedIdentsLoop (fun _ => EBUSY) 1 (uriA :: [uriB]) =
      dropSomeQueuedIdentsLoop (fun _ => EBUSY) 0 ([uriB] ++ [uriA]) :=
  dropQueue_lifo [uriA, uriB] [] (fun _ => EBUSY) 0 uriA [uriB] rfl

/-- C8: for every S3 hot backup into an existing bucket, if listing the
objects under the configured prefix succeeds and returns any object whose
key differs from `path + '/'`, the backup fails with the invalid-path
error and no file uploads are performed. -/
theorem hotBackupS3_nonEmptyTarget (w : S3World) (p : S3Params)
    (files : List FileEntry) (buckets objs : List String) (k : String)
    (h1 : w.listBucketsOutcome = some buckets) (h2 : p.bucket ∈ buckets)
    (h3 : w.listObjectsOutcome = some objs) (hk : k ∈ objs)
    (hne : k ≠ p.path ++ "/") :
    hotBackupS3 w p (Except.ok files) = (HotBackupResult.invalidPath, []) := by
  have hb : decide (p.bucket ∈ buckets) = true := by
    simpa using h2
  simp [hotBackupS3, h1, h3, hb]
  intro hall
  exact absurd (hall k hk) hne

/-- Witness for C8: bucket `uriA` exists and the listing holds the key
`uriA`, which differs from the marker `uriB ++ "/"`; the backup fails with
invalid-path and uploads nothing. -/
theorem hotBackupS3_nonEmptyTarget_witness :
    hotBackupS3
      { listBucketsOutcome := some [uriA], createBucketOutcome := true,
        listObjectsOutcome := some [uriA],
        openOutcome := fun _ => true, putOutcome := fun _ => true }
      { bucket := uriA, path := uriB } (Except.ok []) =
      (HotBackupResult.invalidPath, []) :=
  hotBackupS3_nonEmptyTarget
    { listBucketsOutcome := some [uriA], createBucketOutcome := true,
      listObjectsOutcome := some [uriA],
      openOutcome := fun _ => true, putOutcome := fun _ => true }
    { bucket := uriA, path := uriB } [] [uriA] [uriA] uriA rfl
    (by decide) rfl (by decide) (by decide)

/-- Helper for C10: the reaper loop always terminates without a fatal
invariant when every queued URI drops with `0` or `EBUSY`, and the initial
queue is a permutation of the final queue plus the URIs dropped for good,
all of which dropped with `0`. -/
theorem dropLoop_noLoss (f : String → Nat) (n : Nat) :
    ∀ q : List String, (∀ u ∈ q, f u = 0 ∨ f u = EBUSY) →
    ∃ r d, dropSomeQueuedIdentsLoop f n q = some (r, d) ∧
      q.Perm (r ++ d) ∧ ∀ u ∈ d, f u = 0 := by
  induction n with
  | zero =>
    intro q h
    exact ⟨q, [], by simp [dropSomeQueuedIdentsLoop], by simp, by simp⟩
  | succ n ih =>
    intro q h
    rcases q with _ | ⟨uri, rest⟩
    · exact ⟨[], [], by simp [dropSomeQueuedIdentsLoop], by simp, by simp⟩
    · rcases h uri (List.mem_cons_self uri rest) with h0 | hB
      · obtain ⟨r, d, hrun, hperm, hd⟩ :=
          ih rest (fun u hu => h u (List.mem_cons_of_mem _ hu))
        refine ⟨r, uri :: d, ?_, ?_, ?_⟩
        · simp [dropSomeQueuedIdentsLoop, EBUSY, h0, hrun]
        · exact (List.Perm.cons uri hperm).trans List.perm_middle.symm
        · intro u hu
          rcases List.mem_cons.mp hu with rfl | hu
          · exact h0
          · exact hd u hu
      · obtain ⟨r, d, hrun, hperm, hd⟩ := ih (rest ++ [uri]) (fun u hu => by
          rcases List.mem_append.mp hu with hu | hu
          · exact h u (List.mem_cons_of_mem _ hu)
          · simp only [List.mem_singleton] at hu
            subst hu
            exact Or.inr hB)
        refine ⟨r, d, ?_, ?_, hd⟩
        · simp [dropSomeQueuedIdentsLoop, hB, hrun]
        · exact (List.perm_append_singleton uri rest).symm.trans hperm

/-- C10: `dropSomeQueuedIdents` never loses a queued URI.  When every
queued URI drops with `0` or `EBUSY`, the sweep returns without a fatal
invariant, the initial queue is (as a multiset) the final queue plus the
URIs dropped for good, every URI dropped for good returned `0`, and every
URI whose drop stays `EBUSY` is re-enqueued, keeping its exact
multiplicity; a popped URI whose drop returns any other nonzero code is
process-fatal. -/
theorem dropSomeQueuedIdents_noLoss (f : String → Nat) (q : List String)
    (h : ∀ u ∈ q, f u = 0 ∨ f u = EBUSY) :
    (∃ r d, dropSomeQueuedIdents f q = some (r, d) ∧
      q.Perm (r ++ d) ∧ (∀ u ∈ d, f u = 0) ∧
      (∀ u, f u = EBUSY → r.count u = q.count u)) ∧
    (∀ (g : String → Nat) (uri : String) (rest : List String),
      g uri ≠ 0 → g uri ≠ EBUSY →
      dropSomeQueuedIdents g (uri :: rest) = none) := by
  constructor
  · obtain ⟨r, d, hrun, hperm, hd⟩ := dropLoop_noLoss f (numToDelete q.length) q h
    refine ⟨r, d, hrun, hperm, hd, ?_⟩
    intro u hu
    have h1 : q.count u = (r ++ d).count u := hperm.count_eq u
    have h2 : d.count u = 0 := by
      rw [List.count_eq_zero]
      intro hmem
      have h0 := hd u hmem
      rw [h0] at hu
      simp [EBUSY] at hu
    rw [h1, List.count_append, h2]
    omega
  · intro g uri rest hg0 hgB
    have hnum : numToDelete (uri :: rest).length =
        (numToDelete (uri :: rest).length - 1) + 1 := by
      unfold numToDelete
      split <;> omega
    unfold dropSomeQueuedIdents
    rw [hnum]
    simp [dropSomeQueuedIdentsLoop, hg0, hgB]

/-- Witness for C10: a singleton queue whose URI drops cleanly. -/
theorem dropSomeQueuedIdents_noLoss_witness :
    (∃ r d, dropSomeQueuedIdents (fun _ => 0) [uriA] = some (r, d) ∧
      ([uriA]).Perm (r ++ d) ∧ (∀ u ∈ d, (fun _ => (0 : Nat)) u = 0) ∧
      (∀ u, (fun _ => (0 : Nat)) u = EBUSY →
        r.count u = ([uriA]).count u)) ∧
    (∀ (g : String → Nat) (uri : String) (rest : List String),
      g uri ≠ 0 → g uri ≠ EBUSY →
      dropSomeQueuedIdents g (uri :: rest) = none) :=
  dropSomeQueuedIdents_noLoss (fun _ => 0) [uriA] (fun _ _ => Or.inl rfl)

end WTKV
